import Mathlib

/-!
Shallow embedding of the multi-monitor video player
(`src/vlc_controller.py`, `src/display_info.py`, `src/video_player_app.py`)
and proofs about the claims of its specification.

Python exceptions are modelled with `Except`/`Option`; the OS environment
(`os.path.exists`, `subprocess.Popen`, the Win32 display query, the wall
clock) is a parameter (`Env`, `OSDisplays`).  Observable side effects
(logging, spawning, waiting, dialog boxes, `QTimer.singleShot`) are recorded
as explicit event and dialog lists so that temporal claims can be stated.
-/

namespace Spec2Proof

/-- Python exception values that matter to the embedded code. -/
inductive PyErr where
  | fileNotFound (msg : String)
  | jsonDecode
  | attributeError
  | osError
deriving Repr, DecidableEq

/-- A spawned player process together with the behaviour the OS gives it:
its output and exit outcome, and how it reacts to `terminate`/`kill`.
These behaviour flags are the OS side of `subprocess.Popen` handles. -/
structure Proc where
  pid : Nat
  stdoutData : String
  stderrData : String
  exitCode : Int
  /-- `p.terminate()` raises. -/
  terminateRaises : Bool
  /-- after `terminate`, the process exits within the 5 s grace period,
  so `p.wait(timeout=5)` returns instead of raising `TimeoutExpired`. -/
  diesWithinGrace : Bool
  /-- `p.kill()` raises. -/
  killRaises : Bool
deriving Repr, DecidableEq

/-- Entry of `VLCController.playback_status`. -/
structure PlayStatus where
  start_time : Nat
  status : String
deriving Repr, DecidableEq

/-- State of `VLCController`: the resolved player path, the live-process
list `self.processes`, and the dict `self.playback_status` (modelled as an
association list; `d[k] = v` appends, lookups take the last binding). -/
structure VLCState where
  vlc_path : String
  processes : List Proc
  playback_status : List (Nat × PlayStatus)
deriving Repr, DecidableEq

/-- A display record as built by `DisplayInfo.get_monitors`. -/
structure MonitorInfo where
  index : Nat
  handle : Nat
  position : Int × Int × Int × Int
  work_area : Int × Int × Int × Int
  device : String
deriving Repr, DecidableEq

/-- Observable actions of the controller and orchestrator, in order. -/
inductive Event where
  | spawned (pid : Nat)
  /-- `process.communicate()`: the caller blocks until the spawned
  process exits and its pipes close. -/
  | waitedForExit (pid : Nat)
  | loggedStdout (pid : Nat)
  | loggedStderr (pid : Nat)
  /-- the `except` branch of `start_vlc_instance` logged a failure. -/
  | launchFailedLog
  /-- `start_next_playback` called `start_vlc_instance` for this slot. -/
  | launchAttempt (slot : Nat)
  | terminateAttempt (pid : Nat)
  /-- `p.wait(timeout=grace)` was entered for this process. -/
  | waitedGrace (pid : Nat) (timeout : Nat)
  | killAttempt (pid : Nat)
  | killFailedLog (pid : Nat)
deriving Repr, DecidableEq

/-- Dialog boxes shown by `VideoPlayerApp` (only the ones the embedded
operations can produce). -/
inductive Dialog where
  /-- "请先选择视频文件" — start pressed with no videos selected. -/
  | warningSelectFirst
  /-- "视频文件数量 (n) 少于显示器数量 (m)". -/
  | warningTooFewVideos (nVideos nMonitors : Nat)
  /-- "屏幕 k 播放失败" (k is 1-based). -/
  | criticalPlayFailed (screen : Nat)
  /-- the `except` branch of `start_playback`. -/
  | criticalPlayError
  /-- truncation warning of `show_change_video_buttons`. -/
  | warningTruncated (nPaths nMonitors : Nat)
  /-- under-assignment warning of `show_change_video_buttons`. -/
  | warningPadded (nPaths nMonitors : Nat)
  /-- "已为 n 个屏幕分配视频文件". -/
  | infoAssigned (n : Nat)
deriving Repr, DecidableEq

/-- The OS environment seen by the controller: `os.path.exists`,
`subprocess.Popen` (`none` means the spawn call raises), `time.time()`. -/
structure Env where
  fileExists : String → Bool
  spawn : List String → Option Proc
  now : Nat

/-- Grace period of `p.wait(timeout=5)` in `stop_all`. -/
def gracePeriodSeconds : Nat := 5

/-- Delay of `QTimer.singleShot(1000, ...)` between staged launches. -/
def interLaunchDelayMs : Nat := 1000

/-- `VLCController.build_command`.  Raises `FileNotFoundError` when the
asset does not exist; otherwise returns the argument list
`[vlc_path, "--fullscreen", video_path]`.  The source also computes
`width`/`height` from the monitor rectangle and discards them, and
normalises the path with `os.path.normpath` (identity on the already
normalised paths modelled here). -/
def build_command (env : Env) (vlcPath video_path : String)
    (monitor_info : MonitorInfo) : Except PyErr (List String) :=
  if env.fileExists video_path = false then
    Except.error (PyErr.fileNotFound video_path)
  else
    let monitor := monitor_info.position
    let _width := monitor.2.2.1 - monitor.1
    let _height := monitor.2.2.2 - monitor.2.1
    Except.ok [vlcPath, "--fullscreen", video_path]

/-- Events of a successful spawn in `start_vlc_instance`: the `Popen`,
the blocking `communicate()`, and the conditional output logging. -/
def spawn_trace (p : Proc) : List Event :=
  [Event.spawned p.pid, Event.waitedForExit p.pid]
    ++ (if p.stdoutData = "" then [] else [Event.loggedStdout p.pid])
    ++ (if p.stderrData = "" then [] else [Event.loggedStderr p.pid])

/-- `VLCController.start_vlc_instance`: build the command, spawn,
`communicate()` (wait for exit), log outputs, record the process and a
`"playing"` status, return `True`; any exception is caught, logged, and
`False` is returned. -/
def start_vlc_instance (env : Env) (st : VLCState) (video_path : String)
    (monitor_info : MonitorInfo) : Bool × VLCState × List Event :=
  match build_command env st.vlc_path video_path monitor_info with
  | Except.error _ => (false, st, [Event.launchFailedLog])
  | Except.ok cmd =>
    match env.spawn cmd with
    | none => (false, st, [Event.launchFailedLog])
    | some process =>
      (true,
       { st with
         processes := st.processes ++ [process],
         playback_status := st.playback_status ++
           [(process.pid, { start_time := env.now, status := "playing" })] },
       spawn_trace process)

/-- The spawn outcome of one launch: `some p` exactly when the asset
exists and `Popen` succeeds.  Characterises `start_vlc_instance`. -/
def attempt (env : Env) (vlcPath path : String) : Option Proc :=
  if env.fileExists path then env.spawn [vlcPath, "--fullscreen", path] else none

/-- Last-binding lookup in the `playback_status` association list,
projected to the `status` field (Python dict semantics). -/
def statusOf (m : List (Nat × PlayStatus)) (pid : Nat) : Option String :=
  (m.reverse.find? (fun kv => kv.1 == pid)).map (fun kv => kv.2.status)

/-- Events of the inner `try: p.kill() except: log` of `stop_all`. -/
def kill_events (p : Proc) : List Event :=
  if p.killRaises then [Event.killAttempt p.pid, Event.killFailedLog p.pid]
  else [Event.killAttempt p.pid]

/-- Events of one iteration of the `stop_all` loop:
`try: p.terminate(); p.wait(timeout=5) except: try: p.kill() except: log`. -/
def stop_one_events (p : Proc) : List Event :=
  Event.terminateAttempt p.pid ::
    (if p.terminateRaises then kill_events p
     else Event.waitedGrace p.pid gracePeriodSeconds ::
       (if p.diesWithinGrace then [] else kill_events p))

/-- `VLCController.stop_all`: iterate over every live process,
terminate / wait / kill with all exceptions swallowed, then
unconditionally reset `self.processes = []` and `self.playback_status = {}`. -/
def stop_all (st : VLCState) : VLCState × List Event :=
  ({ st with processes := [], playback_status := [] },
   (st.processes.map stop_one_events).flatten)

/-! ## Display enumerator (`src/display_info.py`) -/

/-- What `win32api.GetMonitorInfo` returns for one monitor handle. -/
structure RawMonitor where
  handle : Nat
  monitorRect : Int × Int × Int × Int
  workRect : Int × Int × Int × Int
  device : String
deriving Repr, DecidableEq

/-- The OS side of display enumeration: whether
`win32api.EnumDisplayMonitors` itself raises, and for each enumerated
handle, the `GetMonitorInfo` result (`none`: that call raises). -/
structure OSDisplays where
  enumRaises : Bool
  perMonitor : List (Option RawMonitor)
deriving Repr, DecidableEq

/-- The record appended by the loop body of `get_monitors`. -/
def mkMonitor (i : Nat) (r : RawMonitor) : MonitorInfo :=
  { index := i, handle := r.handle, position := r.monitorRect,
    work_area := r.workRect, device := r.device }

/-- The `for i, monitor in enumerate(...)` loop of `get_monitors`:
accumulates records until the first raising `GetMonitorInfo`, at which
point the exception is caught and the list gathered so far is kept. -/
def collectMonitors : List (Option RawMonitor) → Nat → List MonitorInfo
  | [], _ => []
  | none :: _, _ => []
  | some r :: rest, i => mkMonitor i r :: collectMonitors rest (i + 1)

/-- `DisplayInfo.get_monitors`: every exception from the OS query is
caught and logged, and the monitors gathered so far (none, when the
enumeration call itself raised) are returned as a plain list. -/
def get_monitors (osd : OSDisplays) : List MonitorInfo :=
  if osd.enumRaises then [] else collectMonitors osd.perMonitor 0

/-- The underlying OS display query fails somewhere during
`get_monitors` (either call raises). -/
def osQueryFails (osd : OSDisplays) : Bool :=
  osd.enumRaises || osd.perMonitor.any (fun o => o.isNone)

/-! ## Orchestrator (`src/video_player_app.py`) -/

/-- State of `VideoPlayerApp` (the fields the orchestration logic uses),
plus the observable history: dialog boxes shown and events performed.
`scheduled` records whether the invocation that produced this state armed
a `QTimer.singleShot`, and with which delay. -/
structure AppState where
  video_files : List String
  is_loop_play : Bool
  continue_playback : Bool
  current_monitor_index : Nat
  monitors : List MonitorInfo
  vlc : VLCState
  dialogs : List Dialog
  events : List Event
  scheduled : Option Nat
deriving Repr, DecidableEq

/-- `VideoPlayerApp.start_next_playback`: one staging step.  Returns
`none` when `self.video_files[self.current_monitor_index]` raises
`IndexError` (cursor within the monitor list but beyond the video list). -/
def start_next_playback (env : Env) (st : AppState) : Option AppState :=
  if st.continue_playback = false then some { st with scheduled := none }
  else if h : st.current_monitor_index < st.monitors.length then
    match st.video_files.get? st.current_monitor_index with
    | none => none
    | some video_path =>
      let monitor := st.monitors.get ⟨st.current_monitor_index, h⟩
      let r := start_vlc_instance env st.vlc video_path monitor
      some { st with
        vlc := r.2.1,
        events := st.events ++ Event.launchAttempt st.current_monitor_index :: r.2.2,
        dialogs := st.dialogs ++
          (if r.1 then [] else [Dialog.criticalPlayFailed (st.current_monitor_index + 1)]),
        current_monitor_index := st.current_monitor_index + 1,
        scheduled := some interLaunchDelayMs }
  else if st.is_loop_play then
    some { st with
      current_monitor_index := 0,
      vlc := (stop_all st.vlc).1,
      events := st.events ++ (stop_all st.vlc).2,
      scheduled := some interLaunchDelayMs }
  else some { st with scheduled := none }

/-- The two early-return guards of `start_playback`:
`if not self.video_files` and
`if len(self.video_files) < len(monitors)`, each with its warning box. -/
def start_playback_guard (st : AppState) (monitors : List MonitorInfo) : Option Dialog :=
  if st.video_files.isEmpty then some Dialog.warningSelectFirst
  else if st.video_files.length < monitors.length then
    some (Dialog.warningTooFewVideos st.video_files.length monitors.length)
  else none

/-- The body of `start_playback` past its guards:
`self.vlc.stop_all(); self.current_monitor_index = 0;
self.monitors = monitors`. -/
def start_playback_setup (osd : OSDisplays) (st : AppState) : AppState :=
  { st with
    vlc := (stop_all st.vlc).1,
    events := st.events ++ (stop_all st.vlc).2,
    current_monitor_index := 0,
    monitors := get_monitors osd }

/-- `VideoPlayerApp.start_playback`: guards, then setup and the first
staging step; the surrounding `try/except` shows a critical box. -/
def start_playback (env : Env) (osd : OSDisplays) (st : AppState) : AppState :=
  match start_playback_guard st (get_monitors osd) with
  | some w => { st with dialogs := st.dialogs ++ [w] }
  | none =>
    match start_next_playback env (start_playback_setup osd st) with
    | some st2 => st2
    | none =>
      { start_playback_setup osd st with
        dialogs := (start_playback_setup osd st).dialogs ++ [Dialog.criticalPlayError] }

/-- The `QTimer` event loop: while the last step armed a timer, perform
the next staging step.  `fuel` bounds the number of steps; `none` on
exhausted fuel or an uncaught `IndexError` inside a step. -/
def drive (env : Env) : Nat → AppState → Option AppState
  | 0, _ => none
  | fuel + 1, st =>
    match start_next_playback env st with
    | none => none
    | some st2 =>
      match st2.scheduled with
      | some _ => drive env fuel st2
      | none => some st2

/-- A whole staged start: `start_playback` followed by the timer-driven
steps it arms. -/
def run_session (env : Env) (osd : OSDisplays) (st : AppState) (fuel : Nat) :
    Option AppState :=
  match start_playback_guard st (get_monitors osd) with
  | some w => some { st with dialogs := st.dialogs ++ [w] }
  | none => drive env fuel (start_playback_setup osd st)

/-- `VideoPlayerApp.show_change_video_buttons`, with the file-pick dialog
result and the monitor count as parameters.  An empty selection
(`if file_paths:` false) leaves everything unchanged.  The trailing
`save_settings()` call persists the result and is not modelled here. -/
def show_change_video_buttons (num_monitors : Nat) (file_paths : List String)
    (st : AppState) : AppState :=
  if file_paths.isEmpty then st
  else if file_paths.length > num_monitors then
    { st with
      video_files := file_paths.take num_monitors,
      dialogs := st.dialogs ++
        [Dialog.warningTruncated file_paths.length num_monitors,
         Dialog.infoAssigned num_monitors] }
  else if file_paths.length < num_monitors then
    { st with
      video_files := file_paths ++ List.replicate (num_monitors - file_paths.length) "",
      dialogs := st.dialogs ++
        [Dialog.warningPadded file_paths.length num_monitors,
         Dialog.infoAssigned num_monitors] }
  else
    { st with
      video_files := file_paths,
      dialogs := st.dialogs ++ [Dialog.infoAssigned num_monitors] }

/-! ## Persisted configuration (`save_settings` / `load_settings`) -/

/-- JSON values, as produced by Python's `json` module. -/
inductive Json where
  | null
  | bool (b : Bool)
  | num (n : Int)
  | str (s : String)
  | arr (xs : List Json)
  | obj (kvs : List (String × Json))
deriving Repr

/-- The persisted `AssetAssignment`: the two fields `save_settings`
writes and `load_settings` reads. -/
structure Settings where
  video_files : List String
  is_loop_play : Bool
deriving Repr, DecidableEq

/-- `VideoPlayerApp.save_settings`: the JSON object written to
`settings.json` (`json.dump({"video_files": ..., "is_loop_play": ...})`). -/
def save_settings (s : Settings) : Json :=
  Json.obj [("video_files", Json.arr (s.video_files.map Json.str)),
            ("is_loop_play", Json.bool s.is_loop_play)]

/-- Outcome of `open('settings.json')` + `json.load`: the file is
missing, its content is not JSON, or it parses to a value. -/
inductive FileRead where
  | missing
  | badJson
  | parsed (j : Json)

/-- `open` + `json.load(f)` as an exception-throwing computation. -/
def read_and_parse : FileRead → Except PyErr Json
  | FileRead.missing => Except.error (PyErr.fileNotFound "settings.json")
  | FileRead.badJson => Except.error PyErr.jsonDecode
  | FileRead.parsed j => Except.ok j

/-- One string element of the persisted `video_files` array. -/
def asStr : Json → Option String
  | Json.str s => some s
  | _ => none

/-- All elements of a JSON array as strings. -/
def decodeStrs : List Json → Option (List String)
  | [] => some []
  | j :: rest =>
    match asStr j, decodeStrs rest with
    | some s, some l => some (s :: l)
    | _, _ => none

/-- The persisted `video_files` value read back as a string list.
Python stores the parsed value untyped; this embedding types the field,
and a stored value that is not an array of strings (which
`save_settings` never writes) reads as `[]`. -/
def decodeStrList : Json → Option (List String)
  | Json.arr xs => decodeStrs xs
  | _ => none

/-- The persisted `is_loop_play` value read back as a boolean (same
typing note as `decodeStrList`). -/
def asBool : Json → Bool
  | Json.bool b => b
  | _ => false

/-- The body `settings.get("video_files", []); settings.get("is_loop_play",
False)`: raises `AttributeError` when the parsed value is not a dict. -/
def settings_of_json : Json → Except PyErr Settings
  | Json.obj kvs =>
    Except.ok
      { video_files := (decodeStrList ((kvs.lookup "video_files").getD (Json.arr []))).getD []
        is_loop_play := asBool ((kvs.lookup "is_loop_play").getD (Json.bool false)) }
  | _ => Except.error PyErr.attributeError

/-- `VideoPlayerApp.load_settings` with its three `except` handlers
(`FileNotFoundError`, `json.JSONDecodeError`, generic `Exception`), each
of which resets to the empty assignment with loop play off.  The result
is always `Except.ok`: no exception escapes. -/
def load_settings_result (f : FileRead) : Except PyErr Settings :=
  match read_and_parse f with
  | Except.error _ => Except.ok { video_files := [], is_loop_play := false }
  | Except.ok j =>
    match settings_of_json j with
    | Except.error _ => Except.ok { video_files := [], is_loop_play := false }
    | Except.ok s => Except.ok s

/-- The value `load_settings` leaves in `self.video_files` /
`self.is_loop_play`. -/
def load_settings (f : FileRead) : Settings :=
  match load_settings_result f with
  | Except.ok s => s
  | Except.error _ => { video_files := [], is_loop_play := false }

/-! ## Concrete fixtures used to evaluate the model -/

/-- A monitor record for display 0. -/
def rawMonA : RawMonitor :=
  { handle := 1, monitorRect := (0, 0, 1920, 1080),
    workRect := (0, 0, 1920, 1040), device := "DISPLAY1" }

/-- A monitor record for display 1. -/
def rawMonB : RawMonitor :=
  { handle := 2, monitorRect := (1920, 0, 3840, 1080),
    workRect := (1920, 0, 3840, 1040), device := "DISPLAY2" }

/-- A monitor record for display 2. -/
def rawMonC : RawMonitor :=
  { handle := 3, monitorRect := (3840, 0, 5760, 1080),
    workRect := (3840, 0, 5760, 1040), device := "DISPLAY3" }

/-- An OS with two displays and a healthy query. -/
def osd2 : OSDisplays := { enumRaises := false, perMonitor := [some rawMonA, some rawMonB] }

/-- An OS with three displays and a healthy query. -/
def osd3 : OSDisplays :=
  { enumRaises := false, perMonitor := [some rawMonA, some rawMonB, some rawMonC] }

/-- A spawned player that runs normally and dies on `terminate`. -/
def procA : Proc :=
  { pid := 101, stdoutData := "", stderrData := "", exitCode := 0,
    terminateRaises := false, diesWithinGrace := true, killRaises := false }

/-- A spawned player that immediately exits with an error and writes to
stderr. -/
def procErr : Proc :=
  { pid := 102, stdoutData := "", stderrData := "cannot open input", exitCode := 1,
    terminateRaises := false, diesWithinGrace := true, killRaises := false }

/-- A player that ignores graceful termination (its `wait(timeout=5)`
times out) but can be killed. -/
def procStuck : Proc :=
  { pid := 103, stdoutData := "", stderrData := "", exitCode := 0,
    terminateRaises := false, diesWithinGrace := false, killRaises := false }

/-- An OS where the assets `a.mp4`, `b.mp4`, `c.mp4` exist and every
spawn succeeds, yielding `procA`. -/
def envA : Env :=
  { fileExists := fun p => p == "a.mp4" || p == "b.mp4" || p == "c.mp4",
    spawn := fun _ => some procA,
    now := 0 }

/-- A fresh controller. -/
def vlc0 : VLCState := { vlc_path := "vlc.exe", processes := [], playback_status := [] }

/-- A fresh application state. -/
def app0 : AppState :=
  { video_files := [], is_loop_play := false, continue_playback := true,
    current_monitor_index := 0, monitors := [], vlc := vlc0,
    dialogs := [], events := [], scheduled := none }

/-- A player whose `terminate` and `kill` both raise. -/
def procBad : Proc :=
  { pid := 104, stdoutData := "", stderrData := "", exitCode := 0,
    terminateRaises := true, diesWithinGrace := false, killRaises := true }

/-- An OS where `a.mp4` exists and every spawn yields the immediately
erroring player `procErr`. -/
def envErr : Env :=
  { fileExists := fun p => p == "a.mp4", spawn := fun _ => some procErr, now := 7 }

/-- The first display of `osd2` as a `MonitorInfo`. -/
def monA : MonitorInfo := mkMonitor 0 rawMonA

/-- A controller with a healthy, a stuck, and a doubly failing live
process. -/
def vlcW : VLCState :=
  { vlc0 with
    processes := [procA, procStuck, procBad],
    playback_status := [(101, { start_time := 0, status := "playing" })] }

/-- A session that has just launched both slots of a 2-display setup,
with loop play enabled. -/
def stEndLoop : AppState :=
  { app0 with
    video_files := ["a.mp4", "b.mp4"], monitors := get_monitors osd2,
    current_monitor_index := 2, is_loop_play := true,
    vlc := { vlc0 with processes := [procA] } }

/-- Same session with loop play disabled. -/
def stEndOnce : AppState := { stEndLoop with is_loop_play := false }

/-- The warning boxes by which `start_playback` reports an early
failure (its two guard messages). -/
def isStartWarning : Dialog → Bool
  | Dialog.warningSelectFirst => true
  | Dialog.warningTooFewVideos _ _ => true
  | _ => false

/-! ## Theorems -/

/-- C1: whenever the command builds and the spawn succeeds,
`start_vlc_instance` performs `process.communicate()` — it waits for the
spawned player's exit before returning to its caller.  This contradicts
the claim that the launch operation returns without waiting on the
spawned process (`process.communicate()` blocks until the process exits
and its pipes close), so every staged launch stalls behind the previous
player's runtime. -/
theorem start_vlc_instance_waits_for_spawned_exit (env : Env) (st : VLCState)
    (path : String) (mon : MonitorInfo) (p : Proc)
    (hx : env.fileExists path = true)
    (hs : env.spawn [st.vlc_path, "--fullscreen", path] = some p) :
    Event.waitedForExit p.pid ∈ (start_vlc_instance env st path mon).2.2 := by
  simp [start_vlc_instance, build_command, hx, hs, spawn_trace]

/-- C1, witness: the blocking wait happens at the concrete failing
input (`a.mp4` on display 0 with a healthy player). -/
theorem start_vlc_instance_waits_for_spawned_exit_witness :
    Event.waitedForExit procA.pid ∈ (start_vlc_instance envA vlc0 "a.mp4" monA).2.2 :=
  start_vlc_instance_waits_for_spawned_exit envA vlc0 "a.mp4" monA procA (by decide) rfl

/-- C10: `start_vlc_instance` returns `False` exactly when building the
command or spawning raises; whenever the spawn itself succeeds it
returns `True`, appends the process to the live set, and records status
`"playing"` — regardless of the spawned player's exit code or stderr
output. -/
theorem start_vlc_instance_reports_playing (env : Env) (st : VLCState)
    (path : String) (mon : MonitorInfo) :
    ((start_vlc_instance env st path mon).1 = false ↔
      (env.fileExists path = false ∨
       env.spawn [st.vlc_path, "--fullscreen", path] = none))
    ∧ (∀ p, env.fileExists path = true →
        env.spawn [st.vlc_path, "--fullscreen", path] = some p →
        (start_vlc_instance env st path mon).1 = true ∧
        p ∈ (start_vlc_instance env st path mon).2.1.processes ∧
        statusOf (start_vlc_instance env st path mon).2.1.playback_status p.pid =
          some "playing") := by
  constructor
  · cases hx : env.fileExists path with
    | false => simp [start_vlc_instance, build_command, hx]
    | true =>
      cases hs : env.spawn [st.vlc_path, "--fullscreen", path] with
      | none => simp [start_vlc_instance, build_command, hx, hs]
      | some p => simp [start_vlc_instance, build_command, hx, hs]
  · intro p hx hs
    refine ⟨?_, ?_, ?_⟩
    · simp [start_vlc_instance, build_command, hx, hs]
    · simp [start_vlc_instance, build_command, hx, hs]
    · simp [start_vlc_instance, build_command, hx, hs, statusOf, List.reverse_append]

/-- C10, witness: a player that immediately exits with code 1 and
writes to stderr is still recorded as `"playing"` and reported as a
successful launch. -/
theorem start_vlc_instance_reports_playing_witness :
    (start_vlc_instance envErr vlc0 "a.mp4" monA).1 = true ∧
    procErr ∈ (start_vlc_instance envErr vlc0 "a.mp4" monA).2.1.processes ∧
    statusOf (start_vlc_instance envErr vlc0 "a.mp4" monA).2.1.playback_status
      procErr.pid = some "playing" ∧
    procErr.exitCode ≠ 0 ∧ procErr.stderrData ≠ "" := by

  have h := (start_vlc_instance_reports_playing envErr vlc0 "a.mp4" monA).2 procErr
    (by decide) rfl
  exact ⟨h.1, h.2.1, h.2.2, by decide, by decide⟩

/-- C4: `stop_all` always leaves both the live-process list and the
playback-status map empty; for every live process it attempts graceful
termination; when `terminate` does not raise it waits up to the 5-unit
grace period; and it force-kills every process that either made
`terminate` raise or is still alive when the grace period expires —
independent of what every other process does. -/
theorem stop_all_clears_and_terminates (st : VLCState) :
    (stop_all st).1.processes = [] ∧ (stop_all st).1.playback_status = [] ∧
    ∀ p ∈ st.processes,
      Event.terminateAttempt p.pid ∈ (stop_all st).2 ∧
      (p.terminateRaises = false →
        Event.waitedGrace p.pid gracePeriodSeconds ∈ (stop_all st).2) ∧
      ((p.terminateRaises = true ∨ p.diesWithinGrace = false) →
        Event.killAttempt p.pid ∈ (stop_all st).2) := by
  refine ⟨rfl, rfl, ?_⟩
  intro p hp
  have hsub : ∀ e ∈ stop_one_events p, e ∈ (stop_all st).2 := by
    intro e he
    simp only [stop_all, List.mem_flatten]
    exact ⟨stop_one_events p, List.mem_map_of_mem _ hp, he⟩
  refine ⟨?_, ?_, ?_⟩
  · exact hsub _ (by simp [stop_one_events])
  · intro ht
    exact hsub _ (by simp [stop_one_events, ht])
  · intro hk
    cases hk with
    | inl ht =>
      refine hsub _ ?_
      cases hkr : p.killRaises <;>
        simp [stop_one_events, ht, kill_events, hkr]
    | inr hd =>
      refine hsub _ ?_
      cases ht : p.terminateRaises <;> cases hkr : p.killRaises <;>
        simp [stop_one_events, ht, hd, kill_events, hkr]

/-- C4, witness: stopping a controller holding a healthy, a stuck
(ignores `terminate`), and a doubly raising process clears both
collections, and the stuck process is force-killed after the grace
wait. -/
theorem stop_all_clears_and_terminates_witness :
    (stop_all vlcW).1.processes = [] ∧ (stop_all vlcW).1.playback_status = [] ∧
    Event.waitedGrace procStuck.pid gracePeriodSeconds ∈ (stop_all vlcW).2 ∧
    Event.killAttempt procStuck.pid ∈ (stop_all vlcW).2 ∧
    Event.killAttempt procBad.pid ∈ (stop_all vlcW).2 := by
  have h := stop_all_clears_and_terminates vlcW
  have hstuck := h.2.2 procStuck (by decide)
  have hbad := h.2.2 procBad (by decide)
  exact ⟨h.1, h.2.1, hstuck.2.1 (by decide), hstuck.2.2 (Or.inr (by decide)),
    hbad.2.2 (Or.inl (by decide))⟩

/-- C7: `load_settings` never lets an exception escape (its result is
always a normally returned `Settings`), and both a missing settings file
and malformed JSON content yield the empty assignment with loop play
disabled. -/
theorem load_settings_fails_soft :
    load_settings FileRead.missing = { video_files := [], is_loop_play := false } ∧
    load_settings FileRead.badJson = { video_files := [], is_loop_play := false } ∧
    ∀ f, load_settings_result f = Except.ok (load_settings f) := by
  refine ⟨rfl, rfl, ?_⟩
  intro f
  cases f with
  | missing => rfl
  | badJson => rfl
  | parsed j =>
    simp only [load_settings, load_settings_result, read_and_parse]
    cases settings_of_json j <;> rfl

/-- Reading back the string array `save_settings` writes yields the
original path list. -/
theorem decodeStrList_map_str (l : List String) :
    decodeStrList (Json.arr (l.map Json.str)) = some l := by
  simp only [decodeStrList]
  induction l with
  | nil => rfl
  | cons h t ih => simp only [decodeStrList] at ih; simp [decodeStrs, asStr, ih]

/-- C8: `save_settings` followed by `load_settings` reproduces the same
assignment (path list and loop flag), and saving what was loaded leaves
the persisted JSON object unchanged. -/
theorem save_load_settings_round_trip (files : List String) (loop : Bool) :
    load_settings (FileRead.parsed (save_settings ⟨files, loop⟩)) = ⟨files, loop⟩ ∧
    save_settings (load_settings (FileRead.parsed (save_settings ⟨files, loop⟩))) =
      save_settings ⟨files, loop⟩ := by
  have h1 : load_settings (FileRead.parsed (save_settings ⟨files, loop⟩)) =
      ⟨files, loop⟩ := by
    simp [load_settings, load_settings_result, read_and_parse, save_settings,
      settings_of_json, List.lookup, decodeStrList_map_str, asBool]
  exact ⟨h1, by rw [h1]⟩

/-- C9, counterexample: when the OS display query fails,
`get_monitors` does not fail with any error — at the concrete failing
input (the enumeration call raises) it returns the plain empty list,
exactly the value a successful enumeration of zero displays returns, so
the caller cannot distinguish the two. -/
theorem get_monitors_failure_indistinguishable_cex :
    osQueryFails { enumRaises := true, perMonitor := [] } = true ∧
    osQueryFails { enumRaises := false, perMonitor := [] } = false ∧
    get_monitors { enumRaises := true, perMonitor := [] } = [] ∧
    get_monitors { enumRaises := true, perMonitor := [] } =
      get_monitors { enumRaises := false, perMonitor := [] } :=
  ⟨rfl, rfl, rfl, rfl⟩

/-- `collectMonitors` only reads the prefix of successful
`GetMonitorInfo` results. -/
theorem collectMonitors_takeWhile (l : List (Option RawMonitor)) (i : Nat) :
    collectMonitors (l.takeWhile (fun o => o.isSome)) i = collectMonitors l i := by
  induction l generalizing i with
  | nil => rfl
  | cons h t ih =>
    cases h with
    | none => simp [List.takeWhile_cons, collectMonitors]
    | some r => simp [List.takeWhile_cons, collectMonitors, ih]

/-- The prefix of successful results contains no failing one. -/
theorem takeWhile_isSome_no_none (l : List (Option RawMonitor)) :
    ((l.takeWhile (fun o => o.isSome)).any (fun o => o.isNone)) = false := by
  induction l with
  | nil => rfl
  | cons h t ih =>
    cases h with
    | none => simp [List.takeWhile_cons]
    | some r => simp [List.takeWhile_cons, ih]

/-- C9 (amended): an OS display-query failure is observationally
indistinguishable from success — every outcome of `get_monitors` under a
failing query is also produced by some query that does not fail (the
monitors gathered before the failure are returned as a normal list, and
no error of any kind is signalled). -/
theorem get_monitors_failure_indistinguishable (osd : OSDisplays) :
    ∃ osdOk, osQueryFails osdOk = false ∧ get_monitors osdOk = get_monitors osd := by
  cases he : osd.enumRaises with
  | true =>
    refine ⟨{ enumRaises := false, perMonitor := [] }, rfl, ?_⟩
    simp [get_monitors, he, collectMonitors]
  | false =>
    refine ⟨{ enumRaises := false,
              perMonitor := osd.perMonitor.takeWhile (fun o => o.isSome) }, ?_, ?_⟩
    · simp [osQueryFails, takeWhile_isSome_no_none]
    · simp [get_monitors, he, collectMonitors_takeWhile]

/-- C2, counterexample: with one display and an empty selected path
list (`pathCount = 0`), the assign operation is a no-op — the resulting
assignment has length 0, not 1, and no under-assignment warning is
reported. -/
theorem show_change_video_buttons_empty_selection_cex :
    (show_change_video_buttons 1 [] app0).video_files.length = 0 ∧
    (show_change_video_buttons 1 [] app0).video_files.length ≠ 1 ∧
    (show_change_video_buttons 1 [] app0).dialogs = [] := by
  refine ⟨rfl, ?_, rfl⟩
  decide

/-- C2 (amended): for every `displayCount ≥ 0` and every non-empty
selected path list, `show_change_video_buttons` produces an assignment of
length exactly `displayCount`; when more paths were selected than
displays it keeps exactly the first `displayCount` paths and reports a
truncation warning, and when fewer were selected it appends empty-string
slots at the end and reports an under-assignment warning.  (An empty
selection — the user cancelling the dialog — leaves the previous
assignment untouched.) -/
theorem show_change_video_buttons_fit_law (num_monitors : Nat)
    (file_paths : List String) (st : AppState) (h : file_paths ≠ []) :
    ((show_change_video_buttons num_monitors file_paths st).video_files.length =
      num_monitors)
    ∧ (file_paths.length > num_monitors →
        (show_change_video_buttons num_monitors file_paths st).video_files =
          file_paths.take num_monitors ∧
        Dialog.warningTruncated file_paths.length num_monitors ∈
          (show_change_video_buttons num_monitors file_paths st).dialogs)
    ∧ (file_paths.length < num_monitors →
        (show_change_video_buttons num_monitors file_paths st).video_files =
          file_paths ++ List.replicate (num_monitors - file_paths.length) "" ∧
        Dialog.warningPadded file_paths.length num_monitors ∈
          (show_change_video_buttons num_monitors file_paths st).dialogs) := by
  have hne : file_paths.isEmpty = false := by
    cases file_paths with
    | nil => exact absurd rfl h
    | cons a l => rfl
  by_cases hgt : file_paths.length > num_monitors
  · have hnl : ¬ file_paths.length < num_monitors := by omega
    refine ⟨?_, fun _ => ⟨?_, ?_⟩, fun hl => absurd hl hnl⟩ <;>
      · simp [show_change_video_buttons, hne, hgt]
        try omega
  · by_cases hlt : file_paths.length < num_monitors
    · refine ⟨?_, fun hg => absurd hg hgt, fun _ => ⟨?_, ?_⟩⟩ <;>
        · simp [show_change_video_buttons, hne, hgt, hlt]
          try omega
    · have heq : file_paths.length = num_monitors := by omega
      refine ⟨?_, fun hg => absurd hg hgt, fun hl => absurd hl hlt⟩
      simp [show_change_video_buttons, hne, hgt, hlt, heq]

/-- C2, witness: one selected path over three displays is padded with
two empty slots to length 3, with the under-assignment warning. -/
theorem show_change_video_buttons_fit_law_witness :
    (show_change_video_buttons 3 ["a.mp4"] app0).video_files.length = 3 ∧
    (show_change_video_buttons 3 ["a.mp4"] app0).video_files =
      ["a.mp4"] ++ List.replicate 2 "" ∧
    Dialog.warningPadded 1 3 ∈ (show_change_video_buttons 3 ["a.mp4"] app0).dialogs := by
  have h := show_change_video_buttons_fit_law 3 ["a.mp4"] app0 (by decide)
  have h2 := h.2.2 (by decide)
  exact ⟨h.1, h2.1, h2.2⟩

/-- C5: when the launch cursor has reached the end of the slot sequence
(and playback has not been cancelled): with loop play enabled,
`start_next_playback` stops all current processes (leaving the live set
empty), resets the cursor to slot 0, and arms the next staging step
after the same inter-launch delay; with loop play disabled it arms no
further step and changes nothing else. -/
theorem start_next_playback_end_of_sequence (env : Env) (st : AppState)
    (hc : st.continue_playback = true)
    (hend : st.monitors.length ≤ st.current_monitor_index) :
    (st.is_loop_play = true →
      start_next_playback env st = some
        { st with
          current_monitor_index := 0,
          vlc := (stop_all st.vlc).1,
          events := st.events ++ (stop_all st.vlc).2,
          scheduled := some interLaunchDelayMs } ∧
      (stop_all st.vlc).1.processes = []) ∧
    (st.is_loop_play = false →
      start_next_playback env st = some { st with scheduled := none }) := by
  have hlt : ¬ st.current_monitor_index < st.monitors.length := by omega
  constructor
  · intro hl
    exact ⟨by simp [start_next_playback, hc, hlt, hl], rfl⟩
  · intro hl
    simp [start_next_playback, hc, hlt, hl]

/-- C5, witness: at the end of a 2-display pass, loop play restarts
from slot 0 with the 1000 ms delay armed and the live set cleared, and
one-shot play arms nothing. -/
theorem start_next_playback_end_of_sequence_witness :
    (start_next_playback envA stEndLoop = some
      { stEndLoop with
        current_monitor_index := 0,
        vlc := (stop_all stEndLoop.vlc).1,
        events := stEndLoop.events ++ (stop_all stEndLoop.vlc).2,
        scheduled := some interLaunchDelayMs } ∧
     (stop_all stEndLoop.vlc).1.processes = []) ∧
    start_next_playback envA stEndOnce = some { stEndOnce with scheduled := none } :=
  ⟨(start_next_playback_end_of_sequence envA stEndLoop (by decide) (by decide)).1 rfl,
   (start_next_playback_end_of_sequence envA stEndOnce (by decide) (by decide)).2 rfl⟩

/-- The guards of `start_playback` fire — with a start warning —
exactly when the assignment is empty or strictly shorter than the
display list. -/
theorem start_playback_guard_cases (st : AppState) (mons : List MonitorInfo) :
    ((st.video_files = [] ∨ st.video_files.length < mons.length) →
      ∃ w, start_playback_guard st mons = some w ∧ isStartWarning w = true) ∧
    (¬(st.video_files = [] ∨ st.video_files.length < mons.length) →
      start_playback_guard st mons = none) := by
  constructor
  · intro hc
    by_cases he : st.video_files = []
    · exact ⟨Dialog.warningSelectFirst, by simp [start_playback_guard, he], rfl⟩
    · have hlt : st.video_files.length < mons.length := hc.resolve_left he
      have he2 : st.video_files.isEmpty = false := by
        cases hv : st.video_files with
        | nil => exact absurd hv he
        | cons a l => rfl
      exact ⟨Dialog.warningTooFewVideos st.video_files.length mons.length,
             by simp [start_playback_guard, he2, hlt], rfl⟩
  · intro hc
    push_neg at hc
    obtain ⟨h1, h2⟩ := hc
    have he2 : st.video_files.isEmpty = false := by
      cases hv : st.video_files with
      | nil => exact absurd hv h1
      | cons a l => rfl
    have hge : ¬ st.video_files.length < mons.length := by omega
    simp [start_playback_guard, he2, hge]

/-- A staging step never shows one of the start warnings: it can only
add a per-slot critical box. -/
theorem start_next_playback_dialog_growth (env : Env) (st st2 : AppState)
    (h : start_next_playback env st = some st2) :
    st2.dialogs.filter isStartWarning = st.dialogs.filter isStartWarning := by
  unfold start_next_playback at h
  split at h
  · cases Option.some.inj h; rfl
  · split at h
    · split at h
      · cases h
      · cases Option.some.inj h
        simp only [List.filter_append]
        split <;> simp [isStartWarning]
    · split at h
      · cases Option.some.inj h; rfl
      · cases Option.some.inj h; rfl

/-- C3 (amended): `start_playback` fails before launching any process,
reporting a warning, exactly when the assignment is empty or its entry
count is less than the display count (the code requires at least one
video per display; excess videos beyond the display count are accepted
and the extra ones are simply unused).  On such a failure the state is
unchanged except for the single warning box — in particular zero player
processes are spawned. -/
theorem start_playback_early_fail_iff (env : Env) (osd : OSDisplays) (st : AppState) :
    (((start_playback env osd st).dialogs.filter isStartWarning ≠
        st.dialogs.filter isStartWarning) ↔
      (st.video_files = [] ∨ st.video_files.length < (get_monitors osd).length))
    ∧ ((st.video_files = [] ∨ st.video_files.length < (get_monitors osd).length) →
        ∃ w, isStartWarning w = true ∧
          start_playback env osd st = { st with dialogs := st.dialogs ++ [w] }) := by
  by_cases hc : st.video_files = [] ∨ st.video_files.length < (get_monitors osd).length
  · obtain ⟨w, hg, hw⟩ := (start_playback_guard_cases st (get_monitors osd)).1 hc
    have hsp : start_playback env osd st = { st with dialogs := st.dialogs ++ [w] } := by
      simp [start_playback, hg]
    refine ⟨⟨fun _ => hc, fun _ => ?_⟩, fun _ => ⟨w, hw, hsp⟩⟩
    rw [hsp]
    simp only [List.filter_append]
    intro heq
    have := congrArg List.length heq
    simp [hw] at this
  · have hg := (start_playback_guard_cases st (get_monitors osd)).2 hc
    refine ⟨⟨fun hne => ?_, fun hcc => absurd hcc hc⟩, fun hcc => absurd hcc hc⟩
    exfalso
    apply hne
    unfold start_playback
    rw [hg]
    cases hsn : start_next_playback env (start_playback_setup osd st) with
    | none =>
      simp [start_playback_setup, List.filter_append, isStartWarning]
    | some st2 =>
      simpa [start_playback_setup] using
        start_next_playback_dialog_growth env _ st2 hsn

/-- C3, counterexample: with 3 assigned videos and 2 displays
(`assignment.length > displays.length`), the claim requires a warning
and zero launches; the code instead proceeds, warns nothing, and spawns
one player per display (two processes). -/
theorem start_playback_more_videos_than_displays_cex :
    ["a.mp4", "b.mp4", "c.mp4"].length > (get_monitors osd2).length ∧
    ∃ F, run_session envA osd2
        { app0 with video_files := ["a.mp4", "b.mp4", "c.mp4"] } 10 = some F ∧
      F.dialogs = [] ∧ F.vlc.processes.length = 2 := by
  refine ⟨by decide, ?_⟩
  exact ⟨_, rfl, rfl, rfl⟩

/-- C3, witness: starting with no selected videos fails early with a
single warning box and an otherwise unchanged state. -/
theorem start_playback_early_fail_iff_witness :
    ∃ w, isStartWarning w = true ∧
      start_playback envA osd2 app0 = { app0 with dialogs := app0.dialogs ++ [w] } :=
  (start_playback_early_fail_iff envA osd2 app0).2 (Or.inl rfl)

/-- `start_vlc_instance` in terms of the spawn outcome `attempt`. -/
theorem start_vlc_instance_cases (env : Env) (st : VLCState) (path : String)
    (mon : MonitorInfo) :
    (attempt env st.vlc_path path = none →
      start_vlc_instance env st path mon = (false, st, [Event.launchFailedLog])) ∧
    (∀ p, attempt env st.vlc_path path = some p →
      start_vlc_instance env st path mon = (true,
        { st with
          processes := st.processes ++ [p],
          playback_status := st.playback_status ++
            [(p.pid, { start_time := env.now, status := "playing" })] },
        spawn_trace p)) := by
  constructor
  · intro ha
    unfold attempt at ha
    cases hfe : env.fileExists path with
    | false => simp [start_vlc_instance, build_command, hfe]
    | true =>
      rw [hfe] at ha
      simp only [if_pos] at ha
      simp [start_vlc_instance, build_command, hfe, ha]
  · intro p ha
    unfold attempt at ha
    cases hfe : env.fileExists path with
    | false => rw [hfe] at ha; simp at ha
    | true =>
      rw [hfe] at ha
      simp only [if_pos] at ha
      simp [start_vlc_instance, build_command, hfe, ha]

/-- Running the timer loop from an arbitrary cursor position in a
non-loop session: it terminates, spawns exactly the processes whose
slots (from the cursor to the last display) hold an existing asset with
a successful `Popen`, preserves the recorded history, attempts every
remaining slot, and reports a per-slot critical box for every attempt
that fails. -/
theorem drive_run (env : Env) :
    ∀ (k fuel : Nat) (st : AppState),
      st.continue_playback = true →
      st.is_loop_play = false →
      st.monitors.length ≤ st.video_files.length →
      st.current_monitor_index + k = st.monitors.length →
      k + 1 ≤ fuel →
      ∃ F, drive env fuel st = some F ∧
        F.vlc.processes = st.vlc.processes ++
          ((st.video_files.drop st.current_monitor_index).take k).filterMap
            (attempt env st.vlc.vlc_path) ∧
        (∀ e ∈ st.events, e ∈ F.events) ∧
        (∀ d ∈ st.dialogs, d ∈ F.dialogs) ∧
        (∀ i, st.current_monitor_index ≤ i → i < st.monitors.length →
          Event.launchAttempt i ∈ F.events ∧
          (attempt env st.vlc.vlc_path (st.video_files.getD i "") = none →
            Dialog.criticalPlayFailed (i + 1) ∈ F.dialogs)) := by
  intro k
  induction k with
  | zero =>
    intro fuel st hc hl hm hk hf
    obtain ⟨f, rfl⟩ : ∃ f, fuel = f + 1 := ⟨fuel - 1, by omega⟩
    have hcur : ¬ st.current_monitor_index < st.monitors.length := by omega
    have hstep : start_next_playback env st = some { st with scheduled := none } := by
      simp [start_next_playback, hc, hcur, hl]
    refine ⟨{ st with scheduled := none }, by simp [drive, hstep], by simp,
      by simp, by simp, ?_⟩
    intro i h1 h2
    omega
  | succ k ih =>
    intro fuel st hc hl hm hk hf
    obtain ⟨f, rfl⟩ : ∃ f, fuel = f + 1 := ⟨fuel - 1, by omega⟩
    have hcur : st.current_monitor_index < st.monitors.length := by omega
    have hcv : st.current_monitor_index < st.video_files.length := by omega
    have hget : st.video_files[st.current_monitor_index]? =
        some (st.video_files[st.current_monitor_index]) :=
      List.getElem?_eq_getElem hcv
    have hdrop : st.video_files.drop st.current_monitor_index =
        st.video_files[st.current_monitor_index] ::
          st.video_files.drop (st.current_monitor_index + 1) :=
      List.drop_eq_getElem_cons hcv
    cases ha : attempt env st.vlc.vlc_path (st.video_files[st.current_monitor_index]) with
    | none =>
      have hvlc := (start_vlc_instance_cases env st.vlc
        (st.video_files[st.current_monitor_index])
        (st.monitors[st.current_monitor_index])).1 ha
      have hstep : start_next_playback env st = some
          { st with
            events := st.events ++
              Event.launchAttempt st.current_monitor_index :: [Event.launchFailedLog],
            dialogs := st.dialogs ++
              [Dialog.criticalPlayFailed (st.current_monitor_index + 1)],
            current_monitor_index := st.current_monitor_index + 1,
            scheduled := some interLaunchDelayMs } := by
        simp [start_next_playback, hc, hcur, hget, hvlc]
      obtain ⟨F, hF, hproc, hev, hdlg, hslots⟩ := ih f
        { st with
          events := st.events ++
            Event.launchAttempt st.current_monitor_index :: [Event.launchFailedLog],
          dialogs := st.dialogs ++
            [Dialog.criticalPlayFailed (st.current_monitor_index + 1)],
          current_monitor_index := st.current_monitor_index + 1,
          scheduled := some interLaunchDelayMs }
        hc hl hm
        (by show st.current_monitor_index + 1 + k = st.monitors.length; omega)
        (by show k + 1 ≤ f; omega)
      refine ⟨F, ?_, ?_, ?_, ?_, ?_⟩
      · simp [drive, hstep]
        exact hF
      · rw [hproc, hdrop, List.take_succ_cons, List.filterMap_cons_none ha]
      · intro e he
        exact hev e (by simp [he])
      · intro d hd
        exact hdlg d (by simp [hd])
      · intro i h1 h2
        rcases eq_or_lt_of_le h1 with rfl | hgt
        · refine ⟨hev _ (by simp), fun _ => hdlg _ (by simp)⟩
        · exact hslots i (by show st.current_monitor_index + 1 ≤ i; omega) h2
    | some p =>
      have hvlc := (start_vlc_instance_cases env st.vlc
        (st.video_files[st.current_monitor_index])
        (st.monitors[st.current_monitor_index])).2 p ha
      have hstep : start_next_playback env st = some
          { st with
            vlc := { st.vlc with
              processes := st.vlc.processes ++ [p],
              playback_status := st.vlc.playback_status ++
                [(p.pid, { start_time := env.now, status := "playing" })] },
            events := st.events ++
              Event.launchAttempt st.current_monitor_index :: spawn_trace p,
            current_monitor_index := st.current_monitor_index + 1,
            scheduled := some interLaunchDelayMs } := by
        simp [start_next_playback, hc, hcur, hget, hvlc]
      obtain ⟨F, hF, hproc, hev, hdlg, hslots⟩ := ih f
        { st with
          vlc := { st.vlc with
            processes := st.vlc.processes ++ [p],
            playback_status := st.vlc.playback_status ++
              [(p.pid, { start_time := env.now, status := "playing" })] },
          events := st.events ++
            Event.launchAttempt st.current_monitor_index :: spawn_trace p,
          current_monitor_index := st.current_monitor_index + 1,
          scheduled := some interLaunchDelayMs }
        hc hl hm
        (by show st.current_monitor_index + 1 + k = st.monitors.length; omega)
        (by show k + 1 ≤ f; omega)
      refine ⟨F, ?_, ?_, ?_, ?_, ?_⟩
      · simp [drive, hstep]
        exact hF
      · rw [hproc, hdrop, List.take_succ_cons, List.filterMap_cons_some ha]
        simp
      · intro e he
        exact hev e (by simp [he])
      · intro d hd
        exact hdlg d hd
      · intro i h1 h2
        rcases eq_or_lt_of_le h1 with rfl | hgt
        · refine ⟨hev _ (by simp), fun hnone => ?_⟩
          rw [List.getD_eq_getElem _ _ hcv] at hnone
          rw [ha] at hnone
          cases hnone
        · exact hslots i (by show st.current_monitor_index + 1 ≤ i; omega) h2

/-- A launch list on which every spawn succeeds contributes one process
per slot. -/
theorem filterMap_attempt_all_some (env : Env) (vp : String) (l : List String)
    (h : ∀ p ∈ l, (attempt env vp p).isSome = true) :
    (l.filterMap (attempt env vp)).length = l.length := by
  induction l with
  | nil => rfl
  | cons a t ih =>
    obtain ⟨q, hq⟩ := Option.isSome_iff_exists.mp (h a (by simp))
    rw [List.filterMap_cons_some hq]
    simp [ih (fun r hr => h r (by simp [hr]))]

/-- C6 (amended): for an assignment with exactly one empty-string slot
(at position `A.length`, the other slots naming existing assets) over an
equal number of displays, a staged start spawns exactly `N - 1` player
processes; the empty slot is NOT silently skipped — it is attempted like
any other slot, the attempt fails inside `start_vlc_instance`
(`os.path.exists("")` is false), and a per-slot critical error box is
shown for it. -/
theorem run_session_one_empty_slot (env : Env) (osd : OSDisplays) (st : AppState)
    (A B : List String)
    (hsplit : st.video_files = A ++ "" :: B)
    (hA : ∀ p ∈ A, env.fileExists p = true)
    (hB : ∀ p ∈ B, env.fileExists p = true)
    (hempty : env.fileExists "" = false)
    (hspawn : ∀ cmd, (env.spawn cmd).isSome = true)
    (hM : (get_monitors osd).length = st.video_files.length)
    (hcont : st.continue_playback = true)
    (hloop : st.is_loop_play = false)
    (fuel : Nat) (hfuel : st.video_files.length + 1 ≤ fuel) :
    ∃ F, run_session env osd st fuel = some F ∧
      F.vlc.processes.length = st.video_files.length - 1 ∧
      Event.launchAttempt A.length ∈ F.events ∧
      Dialog.criticalPlayFailed (A.length + 1) ∈ F.dialogs := by
  have hlen : st.video_files.length = A.length + B.length + 1 := by
    rw [hsplit]
    simp [List.length_append]
    omega
  have hattE : attempt env st.vlc.vlc_path "" = none := by
    simp [attempt, hempty]
  have hne : ¬(st.video_files = [] ∨
      st.video_files.length < (get_monitors osd).length) := by
    intro h
    rcases h with h | h
    · rw [h] at hlen; simp at hlen
    · omega
  have hguard := (start_playback_guard_cases st (get_monitors osd)).2 hne
  obtain ⟨F, hF, hproc, hev, hdlg, hslots⟩ :=
    drive_run env st.video_files.length fuel (start_playback_setup osd st)
      hcont hloop
      (show (get_monitors osd).length ≤ st.video_files.length by omega)
      (show 0 + st.video_files.length = (get_monitors osd).length by omega)
      (by omega)
  simp only [start_playback_setup, stop_all] at hproc hev hdlg hslots
  have hgetd : st.video_files.getD A.length "" = "" := by
    rw [hsplit]
    rw [List.getD_eq_getElem _ _ (by simp)]
    rw [List.getElem_append_right (le_refl A.length)]
    simp
  refine ⟨F, ?_, ?_, ?_, ?_⟩
  · show run_session env osd st fuel = some F
    unfold run_session
    rw [hguard]
    exact hF
  · rw [hproc]
    simp only [List.nil_append, List.drop_zero, List.take_length]
    rw [hsplit, List.filterMap_append, List.filterMap_cons_none hattE]
    have hsomeA : ∀ p ∈ A, (attempt env st.vlc.vlc_path p).isSome = true := by
      intro p hp
      simp [attempt, hA p hp, hspawn]
    have hsomeB : ∀ p ∈ B, (attempt env st.vlc.vlc_path p).isSome = true := by
      intro p hp
      simp [attempt, hB p hp, hspawn]
    rw [List.length_append,
      filterMap_attempt_all_some env _ A hsomeA,
      filterMap_attempt_all_some env _ B hsomeB]
    simp only [List.length_append, List.length_cons]
    omega
  · exact (hslots A.length (by omega) (by omega)).1
  · exact (hslots A.length (by omega) (by omega)).2 (by rw [hgetd]; exact hattE)

/-- C6, counterexample: with the assignment `["a.mp4", "", "b.mp4"]`
over three displays, the staged start does launch exactly `N - 1 = 2`
processes, but the empty slot is not "skipped rather than attempted":
slot 1 IS attempted (`launchAttempt 1` occurs) and a critical
"screen 2 playback failed" box is reported for it. -/
theorem staged_start_attempts_empty_slot_cex :
    ∃ F, run_session envA osd3 { app0 with video_files := ["a.mp4", "", "b.mp4"] } 10 =
        some F ∧
      Event.launchAttempt 1 ∈ F.events ∧
      Dialog.criticalPlayFailed 2 ∈ F.dialogs ∧
      F.vlc.processes.length = 2 := by
  exact ⟨_, rfl, by decide, by decide, rfl⟩

/-- C6, witness: the amended statement evaluated at the concrete
assignment `["a.mp4", "", "b.mp4"]` over three displays. -/
theorem run_session_one_empty_slot_witness :
    ∃ F, run_session envA osd3 { app0 with video_files := ["a.mp4", "", "b.mp4"] } 4 =
        some F ∧
      F.vlc.processes.length = 2 ∧
      Event.launchAttempt 1 ∈ F.events ∧
      Dialog.criticalPlayFailed 2 ∈ F.dialogs := by
  obtain ⟨F, h1, h2, h3, h4⟩ := run_session_one_empty_slot envA osd3
    { app0 with video_files := ["a.mp4", "", "b.mp4"] }
    ["a.mp4"] ["b.mp4"] rfl (by decide) (by decide) (by decide)
    (fun _ => rfl) (by decide) rfl rfl 4 (by decide)
  exact ⟨F, h1, h2, h3, h4⟩

end Spec2Proof
